import Mathlib

/-!
Verification of the ai-voice-agent backend (Go) against its natural-language
specification.  Each Go function relevant to the claims is shallowly embedded
as a Lean definition; time is modelled in integer nanoseconds, machine `int`
values that are non-negative on the paths of interest as `Nat`, and channel
interaction as explicit traces.  Source files referenced below:

* `internal/services/services.go` — `ConversationService.End`, `AddMessage`
* `internal/voice/pipeline/pipeline.go` — `HandleSession`, `runSTT`,
  `runLLM`, `runLangChain`
* the live `cartesia` package client — `Stream` (sender and receiver
  goroutines), `processMessage`.  The snapshot stages two versions of this
  client; the one embedded here is the version that compiles together with
  `cartesia/config.go` (it does not re-declare the `websocketURL` /
  `cartesiaVersion` / `defaultModel` / `defaultSampleRate` constants that
  `config.go` owns), i.e. the client with the `waitingForDone` send gate,
  the `ttsDoneChan` signal, the bounded `consecutiveErrors` retry loop and
  the logged full-channel drop.  Line references for it are to that file.
* `internal/voice/llm/client.go` — `Stream` (provider routing)
-/

namespace VoiceAgent

/-! ## Data model (`internal/models`, `internal/services/services.go`) -/

/-- Message mirrors the persisted fields of `models.Message` that the claims
touch: conversation id, role, content and the start/end offsets (Go `int`,
milliseconds since session start, non-negative on every code path, hence
`Nat`). -/
structure Message where
  conversationID : Nat
  role : String
  content : String
  startTime : Nat
  endTime : Nat
  deriving Repr, DecidableEq

/-- Conversation mirrors the fields of `models.Conversation` read and written
by `ConversationService.End`.  Go stores `StartedAt`/`EndedAt` as wall-clock
times and `DurationSecs` as an `int`; here instants are integer nanoseconds
(Go's `time.Duration` resolution). -/
structure Conversation where
  startedAtNs : Nat
  endedAtNs : Option Nat
  durationSecs : Nat
  summary : String
  sentiment : String
  deriving Repr, DecidableEq

namespace ConversationService

/-- AddMessage embeds `ConversationService.AddMessage` (services.go lines
496–506): it builds a `models.Message` from its five arguments verbatim and
hands it to the repository; the stored record is returned here. -/
def AddMessage (conversationID : Nat) (role content : String)
    (startTime endTime : Nat) : Message :=
  { conversationID := conversationID
    role := role
    content := content
    startTime := startTime
    endTime := endTime }

/-- End embeds `ConversationService.End` (services.go lines 468–493).  The
repository fetch/update pair is modelled as a pure record update: the input
`conv` is the currently stored row for the id and the result is the row after
`Update`.  `now := time.Now()` is the explicit `nowNs` argument.  Go computes
`int(now.Sub(StartedAt).Seconds())`, i.e. the nanosecond difference divided by
10^9 and truncated; for `nowNs ≥ startedAtNs` (the monotone-clock case) that
is exactly Nat division by 10^9, which is how it is rendered here. -/
def End (conv : Conversation) (summary sentiment : String) (nowNs : Nat) :
    Conversation :=
  { conv with
    endedAtNs := some nowNs
    durationSecs := (nowNs - conv.startedAtNs) / 1000000000
    summary := summary
    sentiment := sentiment }

end ConversationService

/-! ## Pipeline events and per-turn behaviour (`pipeline.go`) -/

/-- PipelineEvent mirrors the event types of pipeline.go lines 26–36 that the
modelled code paths emit, with the payload text where one is sent. -/
inductive PipelineEvent where
  | sttChunk (text : String)
  | sttOutput (text : String)
  | agentChunk (text : String)
  | agentEnd
  | errorEvt (message : String)
  deriving Repr, DecidableEq

/-- TurnResult collects the externally visible effects of handling one unit of
work inside a pipeline stage: the events sent to the client via `sendEvent`
and the messages persisted via `ConversationService.AddMessage`, each in
program order. -/
structure TurnResult where
  events : List PipelineEvent
  persisted : List Message
  deriving Repr, DecidableEq

/-- TranscriptEvent mirrors `assemblyai.TranscriptEvent` as consumed by
`runSTT`: partial flag and text. -/
structure TranscriptEvent where
  isPartial : Bool
  text : String
  deriving Repr, DecidableEq

/-- runSTTEvent embeds the per-transcript branch of `runSTT` (pipeline.go
lines 303–323).  A partial transcript only emits `stt_chunk`; a final
transcript emits `stt_output` and persists a role=user message with the single
`elapsed` value (milliseconds since session start) passed as both the start
and the end offset. -/
def runSTTEvent (convID : Nat) (ev : TranscriptEvent) (elapsed : Nat) :
    TurnResult :=
  if ev.isPartial then
    { events := [.sttChunk ev.text], persisted := [] }
  else
    { events := [.sttOutput ev.text]
      persisted := [ConversationService.AddMessage convID "user" ev.text elapsed elapsed] }

/-- runLLMTurn embeds one iteration of the transcript loop in `runLLM`
(pipeline.go lines 385–443) after the user message has been appended.
`stream` is `none` when `llmClient.Stream` returns an error (the code emits an
`error` event and `continue`s), and `some chunks` is the list of tokens read
off `responseChan` in arrival order.  On the success path the code
accumulates `fullResponse += chunk`, emits `agent_chunk` per token and
`agent_end` after the loop, then unconditionally persists a role=assistant
message whose content is the accumulated string, with the same `elapsed`
value as start and end offset. -/
def runLLMTurn (convID : Nat) (stream : Option (List String)) (elapsed : Nat) :
    TurnResult :=
  match stream with
  | none => { events := [.errorEvt "LLM error"], persisted := [] }
  | some chunks =>
      { events := chunks.map PipelineEvent.agentChunk ++ [.agentEnd]
        persisted := [ConversationService.AddMessage convID "assistant"
          (chunks.foldl (· ++ ·) "") elapsed elapsed] }

/-- runLangChainTurn embeds one iteration of the transcript loop in
`runLangChain` (pipeline.go lines 336–372), which has the same shape as
`runLLM` but a different error message: stream-open failure emits
`LangChain error` and `continue`s; otherwise every token is forwarded as
`agent_chunk`, `agent_end` follows, and a role=assistant message holding the
concatenation is persisted with equal offsets. -/
def runLangChainTurn (convID : Nat) (stream : Option (List String))
    (elapsed : Nat) : TurnResult :=
  match stream with
  | none => { events := [.errorEvt "LangChain error"], persisted := [] }
  | some chunks =>
      { events := chunks.map PipelineEvent.agentChunk ++ [.agentEnd]
        persisted := [ConversationService.AddMessage convID "assistant"
          (chunks.foldl (· ++ ·) "") elapsed elapsed] }

/-! ## Stage-failure effect traces (`pipeline.go`) -/

/-- StageEffect is the alphabet of side effects a pipeline stage can perform
on its failure paths: writing an error log line, sending an `error` event via
`sendEvent`, closing the stage's output channel (the deferred `close`),
calling `session.cancel()`, or re-invoking the failed operation.  The last
two constructors exist so that their absence from a trace is expressible. -/
inductive StageEffect where
  | logError
  | emitError (message : String)
  | closeOutput
  | cancelSession
  | retryStage
  deriving Repr, DecidableEq

/-- isErrorEmit recognises the `emitError` effect. -/
def isErrorEmit : StageEffect → Bool
  | .emitError _ => true
  | _ => false

/-- runSTTInitFailure is the effect trace of `runSTT` when
`sttClient.Stream` returns an error (pipeline.go lines 285–290): log the
error, send one `error` event with the user-facing message, return (running
the deferred `close(sttOut)`).  No `session.cancel()` call and no retry
appear anywhere on this path. -/
def runSTTInitFailure : List StageEffect :=
  [.logError, .emitError "STT initialization failed", .closeOutput]

/-- runTTSInitFailure is the effect trace of `runTTS` when
`ttsClient.Stream` returns an error (pipeline.go lines 450–455): log, one
`error` event, return (deferred `close(ttsOut)`). -/
def runTTSInitFailure : List StageEffect :=
  [.logError, .emitError "TTS initialization failed", .closeOutput]

/-- runLLMStreamFailure is the effect trace of one `runLLM` iteration whose
`llmClient.Stream` call returns an error (pipeline.go lines 408–412): log,
one `error` event, then `continue` to await the next transcript — the stage
neither closes its output nor cancels the session nor retries the failed
call. -/
def runLLMStreamFailure : List StageEffect :=
  [.logError, .emitError "LLM error"]

/-! ## Session tear-down order (`pipeline.go` `HandleSession`) -/

/-- TeardownStep is the alphabet of tear-down actions named by the spec's
tear-down sentence. -/
inductive TeardownStep where
  | cancelCtx
  | closeAudioIn
  | waitStages
  | finalizeConversation
  | emitSessionEnd
  | closeSocket
  deriving Repr, DecidableEq

/-- handleSessionTeardown is the order in which `HandleSession` (pipeline.go
lines 119–207) performs its tear-down once `readAudioFromClient` returns
(client close, ingress EOF, `end` control frame, or cancellation): the
deferred `close(audioOut)` inside `readAudioFromClient` closes `audioIn`;
then `wg.Wait()`; then `conversationService.End`; then
`sendEvent(EventSessionEnd)`; then the deferred function runs
`session.cancel()` followed by `session.conn.Close()`.  (The optional
LangChain-session cleanup and final log line that follow `conn.Close()` are
outside this alphabet.) -/
def handleSessionTeardown : List TeardownStep :=
  [.closeAudioIn, .waitStages, .finalizeConversation, .emitSessionEnd,
   .cancelCtx, .closeSocket]

/-- specTeardownOrder is the tear-down order exactly as the specification
sentence states it.  This definition is written from the spec's words, not
from the source, for the refinement comparison of claim C5. -/
def specTeardownOrder : List TeardownStep :=
  [.cancelCtx, .closeAudioIn, .waitStages, .finalizeConversation,
   .emitSessionEnd, .closeSocket]

/-! ## Cartesia TTS adapter: sender goroutine (`cartesia/client.go`) -/

/-- goTrimSpace embeds Go's `strings.TrimSpace` on a string viewed as its
list of runes: whitespace runes are removed from both ends.  Leading
whitespace is dropped directly; trailing whitespace by dropping on the
reversal. -/
def goTrimSpace (l : List Char) : List Char :=
  ((l.dropWhile Char.isWhitespace).reverse.dropWhile Char.isWhitespace).reverse

/-- goByteLen embeds Go's `len` on a string (and `strings.Builder.Len`),
which counts UTF-8 bytes: the sum of the UTF-8 sizes of the runes. -/
def goByteLen (l : List Char) : Nat :=
  l.foldl (fun n c => n + c.utf8Size) 0

/-- hasSuffixChar embeds Go's `strings.HasSuffix` for the one-rune suffixes
used by the sender (`"."`, `"!"`, `"?"`): the string's last rune equals the
given rune. -/
def hasSuffixChar (l : List Char) (c : Char) : Bool :=
  match l.getLast? with
  | some d => d == c
  | none => false

/-- SenderInput is one occurrence observable by the sender goroutine of
`cartesia.Client.Stream` (live client lines 140–204): a token arriving on
`textIn` (its rune list), the 250 ms `flushTicker` firing, a signal on
`ttsDoneChan` (sent by the receiver's `processMessage` when the provider
reports `done`), `textIn` closing, and the session context being
cancelled. -/
inductive SenderInput where
  | token (s : List Char)
  | tick
  | doneMsg
  | closed
  | cancelled
  deriving Repr, DecidableEq

/-- SenderState is the local state of the sender goroutine (live client
lines 93–95): the accumulating `textBuffer`, the `hasSentText` flag (set
after the first successful send) and the `waitingForDone` gate (set on
every successful send, cleared by a `ttsDoneChan` signal). -/
structure SenderState where
  buffer : List Char
  hasSentText : Bool
  waitingForDone : Bool
  deriving Repr, DecidableEq

/-- initialSenderState is the sender state when the goroutine starts: empty
buffer, nothing sent yet, not waiting for a `done`. -/
def initialSenderState : SenderState :=
  { buffer := [], hasSentText := false, waitingForDone := false }

/-- sendBufferStep embeds the `sendBuffer` closure (live client lines
97–135) on the path where the connection has not failed and `sendText`
succeeds.  While `waitingForDone && hasSentText` the call only logs that the
text is queued and returns: nothing is sent and the buffer keeps its
content.  Otherwise the buffer is trimmed; a non-empty trimmed text is
submitted, the buffer reset and `hasSentText` and `waitingForDone` both set;
a whitespace-only buffer submits nothing and stays untouched.  The result is
the new state and the list (empty or singleton) of submitted texts. -/
def sendBufferStep (st : SenderState) : SenderState × List (List Char) :=
  if st.waitingForDone && st.hasSentText then
    (st, [])
  else
    let text := goTrimSpace st.buffer
    if text ≠ [] then
      ({ buffer := [], hasSentText := true, waitingForDone := true }, [text])
    else
      (st, [])

/-- senderStep embeds one iteration of the sender's `select` loop (live
client lines 140–204).  On a token: append, then if the trimmed buffer ends
with `"."`, `"!"` or `"?"` call `sendBuffer`, else if the buffer exceeds
120 bytes (`len(currentText)`) call `sendBuffer`, else keep accumulating.
On a tick: call `sendBuffer` iff the buffer has positive byte length
(`textBuffer.Len() > 0`).  On a `ttsDoneChan` signal: clear
`waitingForDone`, then call `sendBuffer` iff the buffer is byte-non-empty.
On channel close or context cancellation: flush via `sendBuffer` (the loop
then exits). -/
def senderStep (st : SenderState) (ev : SenderInput) : SenderState × List (List Char) :=
  match ev with
  | .token s =>
      let buf := st.buffer ++ s
      let st2 := { st with buffer := buf }
      if (hasSuffixChar (goTrimSpace buf) '.' || hasSuffixChar (goTrimSpace buf) '!' ||
          hasSuffixChar (goTrimSpace buf) '?') then
        sendBufferStep st2
      else if goByteLen buf > 120 then
        sendBufferStep st2
      else
        (st2, [])
  | .tick =>
      if goByteLen st.buffer > 0 then sendBufferStep st else (st, [])
  | .doneMsg =>
      let st2 := { st with waitingForDone := false }
      if goByteLen st2.buffer > 0 then sendBufferStep st2 else (st2, [])
  | .closed => sendBufferStep st
  | .cancelled => sendBufferStep st

/-- senderRun folds `senderStep` over an input trace, starting from the
given state, collecting all submissions in order; `closed` and `cancelled`
are terminal, as in the source, where both branches `return` after the
flush. -/
def senderRun (st : SenderState) : List SenderInput → SenderState × List (List Char)
  | [] => (st, [])
  | .closed :: _ => senderStep st .closed
  | .cancelled :: _ => senderStep st .cancelled
  | ev :: rest =>
      let p := senderStep st ev
      let q := senderRun p.1 rest
      (q.1, p.2 ++ q.2)

/-- isDoneInput recognises a `ttsDoneChan` signal in a sender input
trace. -/
def isDoneInput : SenderInput → Bool
  | .doneMsg => true
  | _ => false

/-- gateBudget counts how many submissions the sender may still make before
needing a `done` signal: zero while the `waitingForDone && hasSentText`
gate is engaged, one otherwise. -/
def gateBudget (st : SenderState) : Nat :=
  if st.waitingForDone && st.hasSentText then 0 else 1

/-- submitsOn says whether the sender makes a synthesis submission when
`senderStep` processes the given event in the given state. -/
def submitsOn (st : SenderState) (ev : SenderInput) : Bool :=
  !(senderStep st ev).2.isEmpty

/-- claimSubmitCondition is the submission condition exactly as claim C3
states it, a function of the buffered text alone: the trimmed buffer at the
moment of the event ends with terminal punctuation, or the buffer length
exceeds 120 characters, or the 250 ms tick fires while the buffer is
non-empty, or the token channel has closed with a non-empty remnant.  This
definition is written from the spec's words, not from the source, for the
refinement comparison of claim C3. -/
def claimSubmitCondition (st : List Char) (ev : SenderInput) : Bool :=
  let buf := match ev with
    | .token s => st ++ s
    | _ => st
  let t := goTrimSpace buf
  hasSuffixChar t '.' || hasSuffixChar t '!' || hasSuffixChar t '?' ||
    decide (buf.length > 120) ||
    (match ev with | .tick => !buf.isEmpty | _ => false) ||
    (match ev with | .closed => !buf.isEmpty | _ => false)

/-- amendedSubmitCondition characterises when the live sender actually
submits.  A `ttsDoneChan` signal submits iff the buffer is byte-non-empty
with non-empty trimmed content (the gate has just been cleared).  Every
other event requires the `waitingForDone && hasSentText` gate to be open
and the trimmed buffer (after appending, for a token) to be non-empty, and
must be a token arrival that leaves the trimmed buffer ending in `"."`,
`"!"` or `"?"` or the buffer above 120 bytes, or a tick with a
byte-non-empty buffer, or channel close, or context cancellation. -/
def amendedSubmitCondition (st : SenderState) (ev : SenderInput) : Bool :=
  match ev with
  | .token s =>
      let buf := st.buffer ++ s
      !(st.waitingForDone && st.hasSentText) && !(goTrimSpace buf).isEmpty &&
        ((hasSuffixChar (goTrimSpace buf) '.' || hasSuffixChar (goTrimSpace buf) '!' ||
            hasSuffixChar (goTrimSpace buf) '?') ||
          decide (goByteLen buf > 120))
  | .tick =>
      !(st.waitingForDone && st.hasSentText) &&
        (decide (goByteLen st.buffer > 0) && !(goTrimSpace st.buffer).isEmpty)
  | .doneMsg => decide (goByteLen st.buffer > 0) && !(goTrimSpace st.buffer).isEmpty
  | .closed => !(st.waitingForDone && st.hasSentText) && !(goTrimSpace st.buffer).isEmpty
  | .cancelled => !(st.waitingForDone && st.hasSentText) && !(goTrimSpace st.buffer).isEmpty

/-! ## Cartesia TTS adapter: receiver goroutine and `processMessage` -/

/-- ReadResult is the outcome of one `conn.ReadMessage()` call in the
receiver goroutine of `cartesia.Client.Stream` (live client lines
227–361): a provider message (identified abstractly by a number), a read
error whose `Timeout()` is true, a websocket close error (`IsCloseError`
normal/going-away/abnormal), or any other read error (the closed-network
strings and the remaining error types, which the code counts and retries
alike). -/
inductive ReadResult where
  | message (m : Nat)
  | timeoutErr
  | closeErr
  | readErr
  deriving Repr, DecidableEq

/-- maxConsecutiveErrors mirrors the receiver's bound of the same name
(live client line 228). -/
def maxConsecutiveErrors : Nat := 3

/-- receiverRun embeds the receiver's read loop (live client lines 227–361)
over a trace of read outcomes, carrying the `consecutiveErrors` counter; it
returns the messages handed to `processMessage` in order, paired with the
final value of the `connFailed` flag.  A successful read or a timeout
resets the counter; a websocket close error stores `connFailed` and returns
at once; any other read error increments the counter and, when it reaches
`maxConsecutiveErrors`, stores `connFailed` and returns, otherwise the loop
sleeps 100 ms and retries.  The trace ending models the loop exiting via
`ctx.Done()` without a failure; the `expectingAudio` pacing and the
panic-recovery wrapper (whose dead-connection case also forces the counter
to the bound) are outside the trace alphabet. -/
def receiverRun (consecutiveErrors : Nat) : List ReadResult → List Nat × Bool
  | [] => ([], false)
  | .message m :: rest =>
      let q := receiverRun 0 rest
      (m :: q.1, q.2)
  | .timeoutErr :: rest => receiverRun 0 rest
  | .closeErr :: _ => ([], true)
  | .readErr :: rest =>
      if consecutiveErrors + 1 ≥ maxConsecutiveErrors then ([], true)
      else receiverRun (consecutiveErrors + 1) rest

/-- CartesiaResponse mirrors the struct that `processMessage` (live client
lines 367–425) unmarshals a provider message into: `type`, base64 `data`,
`done`, `context_id` and `error`. -/
structure CartesiaResponse where
  type : String
  data : String
  done : Bool
  contextID : String
  error : String
  deriving Repr, DecidableEq

/-- CartesiaLog is the alphabet of log records `processMessage` (live
client lines 367–425) can emit: the warning for a provider-reported error,
the warning for a base64 decode failure, the warning for a chunk dropped
because the audio channel is full, and the debug records for an empty
decoded chunk, a received chunk, a `done` message and a non-audio
message. -/
inductive CartesiaLog where
  | warnCartesiaError (e : String)
  | warnDecodeFailed
  | warnChannelFullDrop
  | debugEmptyChunk
  | debugReceivedChunk
  | debugDone
  | debugNonAudio
  deriving Repr, DecidableEq

/-- ProcessResult collects the effects of one `processMessage` call: the
audio chunks enqueued on `audioChan`, the log records in order, and whether
the `ttsDoneChan` signal was attempted. -/
structure ProcessResult where
  enqueued : List (List Nat)
  logs : List CartesiaLog
  doneSignalled : Bool
  deriving Repr, DecidableEq

/-- processMessage embeds `Client.processMessage` of the live client (lines
367–425) after a successful JSON unmarshal (an unmarshal failure logs a
debug record and returns; it is outside this model, whose input is the
parsed struct).  `decode` stands for `base64.StdEncoding.DecodeString` and
`channelFull` says whether the non-blocking send on `audioChan` would hit
its `default` branch.  A provider error is logged and nothing enqueued.  A
`chunk` with non-empty data is decoded: decode failure is logged; an empty
decoded chunk is logged and skipped; otherwise the received chunk is logged
and then either enqueued, or — when the channel is full — dropped with the
`Audio channel full, dropping chunk` warning.  A `done` message logs and
signals `ttsDoneChan` (the non-blocking signal send is modelled as the
attempt); any other non-empty type logs a non-audio record. -/
def processMessage (decode : String → Option (List Nat)) (channelFull : Bool)
    (r : CartesiaResponse) : ProcessResult :=
  if r.error ≠ "" then
    { enqueued := [], logs := [.warnCartesiaError r.error], doneSignalled := false }
  else if r.type = "chunk" ∧ r.data ≠ "" then
    match decode r.data with
    | none => { enqueued := [], logs := [.warnDecodeFailed], doneSignalled := false }
    | some audio =>
        if audio.length = 0 then
          { enqueued := [], logs := [.debugEmptyChunk], doneSignalled := false }
        else if channelFull then
          { enqueued := [], logs := [.debugReceivedChunk, .warnChannelFullDrop],
            doneSignalled := false }
        else
          { enqueued := [audio], logs := [.debugReceivedChunk], doneSignalled := false }
  else if r.type = "done" then
    { enqueued := [], logs := [.debugDone], doneSignalled := true }
  else if r.type ≠ "" then
    { enqueued := [], logs := [.debugNonAudio], doneSignalled := false }
  else
    { enqueued := [], logs := [], doneSignalled := false }

/-! ## LLM provider routing (`llm/client.go`) -/

/-- LLMProvider names the two streaming backends `llm.Client.Stream` can
dispatch to. -/
inductive LLMProvider where
  | anthropic
  | openai
  deriving Repr, DecidableEq

/-- LLMClient mirrors the key material of `llm.Client`. -/
structure LLMClient where
  anthropicKey : String
  openAIKey : String
  deriving Repr, DecidableEq

/-- goStartsWith embeds Go's `strings.HasPrefix` over strings viewed as rune
lists: `goStartsWith l p` holds when `p` is an initial segment of `l`. -/
def goStartsWith : List Char → List Char → Bool
  | _, [] => true
  | [], _ :: _ => false
  | c :: cs, d :: ds => c == d && goStartsWith cs ds

/-- defaultRoute embeds the fall-through section of `llm.Client.Stream`
(client.go lines 62–73): default to OpenAI with `gpt-4o-mini` when the
OpenAI key is set, else to Anthropic with `claude-3-haiku-20240307` when the
Anthropic key is set, else fail (`none` models the returned error). -/
def defaultRoute (c : LLMClient) : Option (LLMProvider × List Char) :=
  if c.openAIKey ≠ "" then some (.openai, "gpt-4o-mini".toList)
  else if c.anthropicKey ≠ "" then some (.anthropic, "claude-3-haiku-20240307".toList)
  else none

/-- streamRoute embeds the provider-selection logic of `llm.Client.Stream`
(client.go lines 29–74), returning which provider is called with which model
name, or `none` when the function returns the no-key error.  The network
call itself is outside the model; the model name is a rune list.  A model
name beginning `claude` or `anthropic` uses Anthropic if its key is set,
else OpenAI with `gpt-4o-mini` if that key is set, else control falls
through to the default section; symmetrically for names beginning `gpt` or
`o1`; all other names go straight to the default section. -/
def streamRoute (c : LLMClient) (model : List Char) : Option (LLMProvider × List Char) :=
  if goStartsWith model "claude".toList || goStartsWith model "anthropic".toList then
    if c.anthropicKey ≠ "" then some (.anthropic, model)
    else if c.openAIKey ≠ "" then some (.openai, "gpt-4o-mini".toList)
    else defaultRoute c
  else if goStartsWith model "gpt".toList || goStartsWith model "o1".toList then
    if c.openAIKey ≠ "" then some (.openai, model)
    else if c.anthropicKey ≠ "" then some (.anthropic, "claude-3-haiku-20240307".toList)
    else defaultRoute c
  else
    defaultRoute c

/-! ## Shared helper lemmas -/

/-- sendBuffer submits iff the `waitingForDone && hasSentText` gate is open
and the trimmed buffer is non-empty. -/
theorem submits_sendBufferStep (st : SenderState) :
    (!(sendBufferStep st).2.isEmpty) =
      (!(st.waitingForDone && st.hasSentText) && !(goTrimSpace st.buffer).isEmpty) := by
  by_cases hg : (st.waitingForDone && st.hasSentText) = true
  · simp [sendBufferStep, hg]
  · have hg2 : (st.waitingForDone && st.hasSentText) = false := by simpa using hg
    by_cases ht : goTrimSpace st.buffer = []
    · simp [sendBufferStep, hg2, ht]
    · simp [sendBufferStep, hg2, ht]

/-- sendBuffer consumes at most the state's submission budget: the number
of texts it submits plus the budget left afterwards never exceeds the
budget before the call. -/
theorem sendBufferStep_budget (st : SenderState) :
    (sendBufferStep st).2.length + gateBudget (sendBufferStep st).1 ≤ gateBudget st := by
  by_cases hg : (st.waitingForDone && st.hasSentText) = true
  · simp [sendBufferStep, gateBudget, hg]
  · have hg2 : (st.waitingForDone && st.hasSentText) = false := by simpa using hg
    by_cases ht : goTrimSpace st.buffer = []
    · simp [sendBufferStep, gateBudget, hg2, ht]
    · simp [sendBufferStep, gateBudget, hg2, ht]

/-- One sender step pays for its submissions out of the gate budget, with
one fresh unit granted per `done` signal. -/
theorem senderStep_budget (st : SenderState) (ev : SenderInput) :
    (senderStep st ev).2.length + gateBudget (senderStep st ev).1 ≤
      (if isDoneInput ev then 1 else 0) + gateBudget st := by
  cases ev with
  | token s =>
      have hx : gateBudget { st with buffer := st.buffer ++ s } = gateBudget st := rfl
      simp only [senderStep, isDoneInput, Bool.false_eq_true, if_false]
      split
      · have h := sendBufferStep_budget { st with buffer := st.buffer ++ s }
        rw [hx] at h
        omega
      · split
        · have h := sendBufferStep_budget { st with buffer := st.buffer ++ s }
          rw [hx] at h
          omega
        · have h0 : gateBudget ({ st with buffer := st.buffer ++ s },
              ([] : List (List Char))).1 = gateBudget st := rfl
          simp only [h0, List.length_nil]
          omega
  | tick =>
      simp only [senderStep, isDoneInput, Bool.false_eq_true, if_false]
      split
      · have h := sendBufferStep_budget st
        omega
      · simp only [List.length_nil]
        omega
  | doneMsg =>
      have hx : gateBudget { st with waitingForDone := false } = 1 := by
        simp [gateBudget]
      simp only [senderStep, isDoneInput, if_true]
      split
      · have h := sendBufferStep_budget { st with waitingForDone := false }
        rw [hx] at h
        omega
      · have h0 : gateBudget ({ st with waitingForDone := false },
            ([] : List (List Char))).1 = 1 := hx
        simp only [h0, List.length_nil]
        omega
  | closed =>
      have h := sendBufferStep_budget st
      simp only [senderStep, isDoneInput, Bool.false_eq_true, if_false]
      omega
  | cancelled =>
      have h := sendBufferStep_budget st
      simp only [senderStep, isDoneInput, Bool.false_eq_true, if_false]
      omega

/-- Over any input trace, the sender's total number of submissions is
bounded by the number of `done` signals in the trace plus the starting
budget. -/
theorem senderRun_submission_bound (trace : List SenderInput) (st : SenderState) :
    (senderRun st trace).2.length ≤ trace.countP isDoneInput + gateBudget st := by
  induction trace generalizing st with
  | nil => simp [senderRun]
  | cons ev rest ih =>
    cases ev with
    | closed =>
        have h := sendBufferStep_budget st
        have hc : List.countP isDoneInput (SenderInput.closed :: rest) =
            List.countP isDoneInput rest := by
          simp [List.countP_cons, isDoneInput]
        show (sendBufferStep st).2.length ≤
          List.countP isDoneInput (SenderInput.closed :: rest) + gateBudget st
        rw [hc]
        omega
    | cancelled =>
        have h := sendBufferStep_budget st
        have hc : List.countP isDoneInput (SenderInput.cancelled :: rest) =
            List.countP isDoneInput rest := by
          simp [List.countP_cons, isDoneInput]
        show (sendBufferStep st).2.length ≤
          List.countP isDoneInput (SenderInput.cancelled :: rest) + gateBudget st
        rw [hc]
        omega
    | token s =>
        have h := senderStep_budget st (SenderInput.token s)
        have h2 := ih (senderStep st (SenderInput.token s)).1
        have hc : List.countP isDoneInput (SenderInput.token s :: rest) =
            List.countP isDoneInput rest := by
          simp [List.countP_cons, isDoneInput]
        simp only [isDoneInput, Bool.false_eq_true, if_false] at h
        show ((senderStep st (SenderInput.token s)).2 ++
            (senderRun (senderStep st (SenderInput.token s)).1 rest).2).length ≤
          List.countP isDoneInput (SenderInput.token s :: rest) + gateBudget st
        rw [List.length_append, hc]
        omega
    | tick =>
        have h := senderStep_budget st SenderInput.tick
        have h2 := ih (senderStep st SenderInput.tick).1
        have hc : List.countP isDoneInput (SenderInput.tick :: rest) =
            List.countP isDoneInput rest := by
          simp [List.countP_cons, isDoneInput]
        simp only [isDoneInput, Bool.false_eq_true, if_false] at h
        show ((senderStep st SenderInput.tick).2 ++
            (senderRun (senderStep st SenderInput.tick).1 rest).2).length ≤
          List.countP isDoneInput (SenderInput.tick :: rest) + gateBudget st
        rw [List.length_append, hc]
        omega
    | doneMsg =>
        have h := senderStep_budget st SenderInput.doneMsg
        have h2 := ih (senderStep st SenderInput.doneMsg).1
        have hc : List.countP isDoneInput (SenderInput.doneMsg :: rest) =
            List.countP isDoneInput rest + 1 := by
          simp [List.countP_cons, isDoneInput]
        simp only [isDoneInput, if_true] at h
        show ((senderStep st SenderInput.doneMsg).2 ++
            (senderRun (senderStep st SenderInput.doneMsg).1 rest).2).length ≤
          List.countP isDoneInput (SenderInput.doneMsg :: rest) + gateBudget st
        rw [List.length_append, hc]
        omega

/-- Go byte-length folds never shrink the accumulator. -/
theorem le_goByteLen_foldl (cs : List Char) (n : Nat) :
    n ≤ cs.foldl (fun a c => a + c.utf8Size) n := by
  induction cs generalizing n with
  | nil => exact Nat.le_refl n
  | cons c cs2 ih =>
      exact Nat.le_trans (Nat.le_add_right n c.utf8Size) (ih (n + c.utf8Size))

/-- A non-empty rune list has positive byte length. -/
theorem goByteLen_pos (l : List Char) (h : l ≠ []) : goByteLen l > 0 := by
  cases l with
  | nil => exact absurd rfl h
  | cons c cs =>
      have h1 : 0 < c.utf8Size := Char.utf8Size_pos c
      have h2 := le_goByteLen_foldl cs (0 + c.utf8Size)
      show 0 < cs.foldl (fun a c => a + c.utf8Size) (0 + c.utf8Size)
      omega

/-- A buffer whose trimmed content is non-empty is itself non-empty. -/
theorem buffer_ne_nil_of_trim {l : List Char} (h : goTrimSpace l ≠ []) : l ≠ [] := by
  intro he
  rw [he] at h
  exact h rfl

/-! ## Claim C1 — assistant-message persistence -/

/-- Claim C1, counterexample: the claim says a role=assistant message is
persisted iff the LLM stream produced at least one non-empty token for the
turn.  At the concrete turn whose stream opens successfully but yields zero
tokens, `runLLM` still calls `AddMessage` with the empty concatenation, so
an assistant message is persisted although no non-empty token was emitted:
the biconditional is false at this input. -/
theorem C1_persist_iff_counterexample :
    ¬ ((((runLLMTurn 1 (some []) 5).persisted.any fun m => m.role == "assistant") = true) ↔
        ((([] : List String).any fun t => t != "") = true)) := by
  decide

/-- Claim C1, amended: for every user turn handled by the LLM stage (direct
or LangChain variant) whose token stream opens successfully, exactly one
role=assistant message is persisted via AddMessage — regardless of whether
any non-empty token arrived — and its content equals the concatenation, in
arrival order, of all tokens emitted for that turn; when opening the stream
fails no assistant message is persisted for that turn. -/
theorem C1_assistant_persist_amended (convID : Nat) (chunks : List String)
    (elapsed : Nat) :
    (runLLMTurn convID (some chunks) elapsed).persisted =
      [⟨convID, "assistant", String.join chunks, elapsed, elapsed⟩] ∧
    (runLLMTurn convID none elapsed).persisted = [] ∧
    (runLangChainTurn convID (some chunks) elapsed).persisted =
      [⟨convID, "assistant", String.join chunks, elapsed, elapsed⟩] ∧
    (runLangChainTurn convID none elapsed).persisted = [] :=
  ⟨rfl, rfl, rfl, rfl⟩

/-! ## Claim C2 — single outstanding TTS request -/

/-- Claim C2: in the TTS adapter's sender at most one synthesis request is
outstanding at any time.  Over any input trace from the initial state, the
number of submissions exceeds the number of `done` receipts by at most one
(so after a submission no further one occurs until a `done` arrives); while
the sender awaits a `done` after a first send, a token arrival submits
nothing and only accumulates in the buffer, and a tick submits nothing
either; and a `done` receipt releases the gate, immediately submitting the
buffered batch when its trimmed content is non-empty. -/
theorem C2_single_outstanding :
    (∀ trace : List SenderInput,
        (senderRun initialSenderState trace).2.length ≤ trace.countP isDoneInput + 1) ∧
    (∀ (st : SenderState) (s : List Char),
        st.waitingForDone = true → st.hasSentText = true →
        (senderStep st (SenderInput.token s)).2 = [] ∧
        (senderStep st (SenderInput.token s)).1.buffer = st.buffer ++ s ∧
        (senderStep st SenderInput.tick).2 = []) ∧
    (∀ st : SenderState,
        st.waitingForDone = true → st.hasSentText = true →
        goTrimSpace st.buffer ≠ [] →
        (senderStep st SenderInput.doneMsg).2 = [goTrimSpace st.buffer]) := by
  refine ⟨?_, ?_, ?_⟩
  · intro trace
    have h := senderRun_submission_bound trace initialSenderState
    simpa [gateBudget, initialSenderState] using h
  · intro st s hw hh
    refine ⟨?_, ?_, ?_⟩
    · simp only [senderStep]
      split
      · simp [sendBufferStep, hw, hh]
      · split
        · simp [sendBufferStep, hw, hh]
        · rfl
    · simp only [senderStep]
      split
      · simp [sendBufferStep, hw, hh]
      · split
        · simp [sendBufferStep, hw, hh]
        · rfl
    · simp only [senderStep]
      split
      · simp [sendBufferStep, hw, hh]
      · rfl
  · intro st hw hh ht
    have hb : goByteLen st.buffer > 0 := goByteLen_pos st.buffer (buffer_ne_nil_of_trim ht)
    simp [senderStep, sendBufferStep, hb, ht]

/-- Claim C2 witness: the discipline theorem applied to the concrete trace
of two sentence-ending tokens with no `done` (one submission results), to a
waiting state receiving a further token (queued, nothing submitted), and to
a waiting state receiving `done` with `Hi` buffered (released and
submitted). -/
theorem C2_single_outstanding_witness :
    (senderRun initialSenderState
        [SenderInput.token "Hi.".toList, SenderInput.token "Yo.".toList]).2.length ≤
      [SenderInput.token "Hi.".toList, SenderInput.token "Yo.".toList].countP isDoneInput + 1 ∧
    (senderStep ⟨"Hi".toList, true, true⟩ (SenderInput.token " there.".toList)).2 = [] ∧
    (senderStep ⟨"Hi".toList, true, true⟩ SenderInput.doneMsg).2 = ["Hi".toList] :=
  ⟨C2_single_outstanding.1 _,
    (C2_single_outstanding.2.1 ⟨"Hi".toList, true, true⟩ " there.".toList rfl rfl).1,
    C2_single_outstanding.2.2 ⟨"Hi".toList, true, true⟩ rfl rfl (by decide)⟩

/-! ## Claim C3 — TTS submission conditions -/

/-- Claim C3, counterexample: the claimed biconditional fails in both
directions on the live sender.  While the sender awaits a `done`
(`waitingForDone` and `hasSentText` set), a token completing a sentence
(`Hi.` into an empty buffer) satisfies the claim's punctuation condition
yet `sendBuffer` queues the text and submits nothing; conversely a `done`
receipt with `Hi` buffered matches none of the claim's four conditions yet
triggers a submission; and a tick over a whitespace-only buffer satisfies
the claim's tick condition but the trimmed text is empty and nothing is
submitted. -/
theorem C3_gated_submit_counterexample :
    claimSubmitCondition [] (SenderInput.token "Hi.".toList) = true ∧
    submitsOn ⟨[], true, true⟩ (SenderInput.token "Hi.".toList) = false ∧
    claimSubmitCondition "Hi".toList SenderInput.doneMsg = false ∧
    submitsOn ⟨"Hi".toList, true, true⟩ SenderInput.doneMsg = true ∧
    claimSubmitCondition " ".toList SenderInput.tick = true ∧
    submitsOn ⟨" ".toList, false, false⟩ SenderInput.tick = false := by
  decide

/-- Claim C3, amended: a synthesis submission is made at a sender step iff
the trimmed buffer at that moment is non-empty and either the step is a
`done` receipt with a byte-non-empty buffer, or the
`waitingForDone && hasSentText` gate is open and the step is a token
arrival after which the trimmed buffer ends with `.`, `!` or `?` or the
buffer exceeds 120 bytes, or a tick with a byte-non-empty buffer, or the
token channel closing, or the session context being cancelled. -/
theorem C3_gated_submit_amended (st : SenderState) (ev : SenderInput) :
    submitsOn st ev = amendedSubmitCondition st ev := by
  cases ev with
  | closed => exact submits_sendBufferStep st
  | cancelled => exact submits_sendBufferStep st
  | doneMsg =>
      show (!(if goByteLen st.buffer > 0 then
            sendBufferStep { st with waitingForDone := false }
          else ({ st with waitingForDone := false }, [])).2.isEmpty) = _
      by_cases hb : goByteLen st.buffer > 0
      · rw [if_pos hb, submits_sendBufferStep]
        simp [amendedSubmitCondition, hb]
      · rw [if_neg hb]
        simp [amendedSubmitCondition, hb]
  | tick =>
      show (!(if goByteLen st.buffer > 0 then sendBufferStep st else (st, [])).2.isEmpty) = _
      by_cases hb : goByteLen st.buffer > 0
      · rw [if_pos hb, submits_sendBufferStep]
        simp [amendedSubmitCondition, hb]
      · rw [if_neg hb]
        simp [amendedSubmitCondition, hb]
  | token s =>
      show (!(if (hasSuffixChar (goTrimSpace (st.buffer ++ s)) '.' ||
              hasSuffixChar (goTrimSpace (st.buffer ++ s)) '!' ||
              hasSuffixChar (goTrimSpace (st.buffer ++ s)) '?') then
            sendBufferStep { st with buffer := st.buffer ++ s }
          else if goByteLen (st.buffer ++ s) > 120 then
            sendBufferStep { st with buffer := st.buffer ++ s }
          else
            ({ st with buffer := st.buffer ++ s }, [])).2.isEmpty) = _
      by_cases h1 : (hasSuffixChar (goTrimSpace (st.buffer ++ s)) '.' ||
          hasSuffixChar (goTrimSpace (st.buffer ++ s)) '!' ||
          hasSuffixChar (goTrimSpace (st.buffer ++ s)) '?') = true
      · rw [if_pos h1, submits_sendBufferStep]
        simp [amendedSubmitCondition, h1]
      · have h1' : (hasSuffixChar (goTrimSpace (st.buffer ++ s)) '.' ||
            hasSuffixChar (goTrimSpace (st.buffer ++ s)) '!' ||
            hasSuffixChar (goTrimSpace (st.buffer ++ s)) '?') = false := by
          simpa using h1
        by_cases h2 : goByteLen (st.buffer ++ s) > 120
        · rw [if_neg h1, if_pos h2, submits_sendBufferStep]
          simp [amendedSubmitCondition, h1', h2]
        · rw [if_neg h1, if_neg h2]
          simp [amendedSubmitCondition, h1', h2]

/-! ## Claim C4 — stage failure handling -/

/-- Claim C4, counterexample: the claim says that on a stage failure the
orchestrator cancels the session.  On the concrete STT-initialization
failure path, the executed effects are logging, one `error` event and the
deferred channel close — no `session.cancel()` call occurs anywhere on the
path, so the session is not cancelled. -/
theorem C4_cancel_counterexample :
    StageEffect.cancelSession ∉ runSTTInitFailure := by
  decide

/-- Claim C4, amended: whenever a stage exits with an error (STT init
failure, LLM stream-open failure, TTS init failure), exactly one `error`
event with a user-facing message is emitted and the failure is not retried
within the session, but the session context is not cancelled: the failed
stage merely returns (closing its output) or skips the turn, and the
session keeps running until the client disconnects or ends it. -/
theorem C4_stage_failure_amended :
    (runSTTInitFailure.countP isErrorEmit = 1 ∧
      StageEffect.cancelSession ∉ runSTTInitFailure ∧
      StageEffect.retryStage ∉ runSTTInitFailure) ∧
    (runTTSInitFailure.countP isErrorEmit = 1 ∧
      StageEffect.cancelSession ∉ runTTSInitFailure ∧
      StageEffect.retryStage ∉ runTTSInitFailure) ∧
    (runLLMStreamFailure.countP isErrorEmit = 1 ∧
      StageEffect.cancelSession ∉ runLLMStreamFailure ∧
      StageEffect.retryStage ∉ runLLMStreamFailure) := by
  decide

/-! ## Claim C5 — tear-down order -/

/-- Claim C5, counterexample: the tear-down order `HandleSession` actually
performs differs from the order the spec states — in the code the context
cancellation runs in the deferred function, after `session_end` is emitted,
not first. -/
theorem C5_teardown_counterexample :
    handleSessionTeardown ≠ specTeardownOrder := by
  decide

/-- Claim C5, amended: on session shutdown the orchestrator performs
exactly the spec's six tear-down steps, but in the order close audioIn →
wait for all stages → finalize the Conversation → emit `session_end` →
cancel the session context → close the socket: the steps are a permutation
of the claimed ones with the context cancellation moved after the
`session_end` emission. -/
theorem C5_teardown_amended :
    handleSessionTeardown =
      [TeardownStep.closeAudioIn, TeardownStep.waitStages,
        TeardownStep.finalizeConversation, TeardownStep.emitSessionEnd,
        TeardownStep.cancelCtx, TeardownStep.closeSocket] ∧
    handleSessionTeardown.Perm specTeardownOrder ∧
    handleSessionTeardown.indexOf TeardownStep.emitSessionEnd <
      handleSessionTeardown.indexOf TeardownStep.cancelCtx := by
  refine ⟨rfl, by decide, by decide⟩

/-! ## Claim C6 — receiver tolerance of transient read errors -/

/-- Claim C6, counterexample: the claim says the receiver tolerates and
recovers from at least 3 consecutive transient (non-timeout) read errors
before declaring failure.  On the concrete trace of exactly three
consecutive transient errors followed by a message, the third error drives
`consecutiveErrors` to `maxConsecutiveErrors`, so the receiver stores
`connFailed` and exits without processing the message: the failure flag is
raised after only three errors, contradicting the claim. -/
theorem C6_three_error_counterexample :
    ¬ ((receiverRun 0 [ReadResult.readErr, ReadResult.readErr, ReadResult.readErr,
        ReadResult.message 7]).2 = false) := by
  decide

/-- Claim C6, amended: the receiver retries transient (non-timeout,
non-close) read errors with a 100 ms backoff, tolerating and recovering
from up to 2 consecutive ones — two errors followed by a successful read
leave the rest of the run unaffected — but the third consecutive transient
error reaches `maxConsecutiveErrors = 3` and is promoted to terminal; a
timeout resets the error count and any number of timeouts is tolerated;
a websocket close error is terminal at once. -/
theorem C6_bounded_retry_amended :
    (∀ (rest : List ReadResult) (m : Nat),
        receiverRun 0 ([ReadResult.readErr, ReadResult.readErr, ReadResult.message m] ++ rest) =
          (m :: (receiverRun 0 rest).1, (receiverRun 0 rest).2)) ∧
    (∀ rest : List ReadResult,
        receiverRun 0 ([ReadResult.readErr, ReadResult.readErr, ReadResult.readErr] ++ rest) =
          ([], true)) ∧
    (∀ rest : List ReadResult,
        receiverRun 0 ([ReadResult.readErr, ReadResult.readErr, ReadResult.timeoutErr] ++ rest) =
          receiverRun 0 rest) ∧
    (∀ (k : Nat) (rest : List ReadResult),
        receiverRun k (ReadResult.closeErr :: rest) = ([], true)) ∧
    (∀ (n : Nat) (rest : List ReadResult),
        receiverRun 0 (List.replicate n ReadResult.timeoutErr ++ rest) = receiverRun 0 rest) := by
  refine ⟨fun rest m => rfl, fun rest => rfl, fun rest => rfl, fun k rest => rfl, ?_⟩
  intro n rest
  induction n with
  | zero => rfl
  | succ j ih => simpa [List.replicate_succ, receiverRun] using ih

/-! ## Claim C7 — dropped TTS chunks -/

/-- Claim C7: when a decoded TTS audio chunk cannot be enqueued into the
PCM output channel because it is full, the chunk is dropped, and every such
drop is logged: on a decodable non-empty `chunk` message a full channel
enqueues nothing and emits the `Audio channel full, dropping chunk`
warning, while a channel with room enqueues the chunk and emits no drop
warning. -/
theorem C7_drop_logged (decode : String → Option (List Nat))
    (r : CartesiaResponse) (audio : List Nat) (he : r.error = "")
    (ht : r.type = "chunk") (hd : r.data ≠ "")
    (hdec : decode r.data = some audio) (hne : audio ≠ []) :
    (processMessage decode true r).enqueued = [] ∧
    CartesiaLog.warnChannelFullDrop ∈ (processMessage decode true r).logs ∧
    (processMessage decode false r).enqueued = [audio] ∧
    CartesiaLog.warnChannelFullDrop ∉ (processMessage decode false r).logs := by
  have hlen : ¬ (audio.length = 0) := by
    simpa [List.length_eq_zero] using hne
  refine ⟨?_, ?_, ?_, ?_⟩ <;>
    simp [processMessage, he, ht, hd, hdec, hlen]

/-- Claim C7 witness: the drop-logging theorem applied to a concrete
decodable chunk message with a full channel. -/
theorem C7_drop_logged_witness :
    (processMessage (fun _ => some [1, 2]) true ⟨"chunk", "QUJD", false, "", ""⟩).enqueued = [] ∧
    CartesiaLog.warnChannelFullDrop ∈
      (processMessage (fun _ => some [1, 2]) true ⟨"chunk", "QUJD", false, "", ""⟩).logs := by
  have h := C7_drop_logged (fun _ => some [1, 2]) ⟨"chunk", "QUJD", false, "", ""⟩ [1, 2]
    rfl rfl (by decide) rfl (by decide)
  exact ⟨h.1, h.2.1⟩

/-! ## Claim C8 — LLM provider routing -/

/-- Claim C8: for every call to the LLM client's Stream, a model name
beginning `claude` or `anthropic` routes to Anthropic when the Anthropic
key is set and otherwise falls back to OpenAI with the default model
`gpt-4o-mini` when the OpenAI key is set; a model name beginning `gpt` or
`o1` (and not matching the first group) routes to OpenAI when the OpenAI
key is set and otherwise falls back to Anthropic with the default model
`claude-3-haiku-20240307`; and whenever neither key is configured, Stream
returns an error (`none`) immediately, for every model name. -/
theorem C8_provider_routing (c : LLMClient) (model : List Char) :
    ((goStartsWith model "claude".toList || goStartsWith model "anthropic".toList) = true →
      (c.anthropicKey ≠ "" → streamRoute c model = some (.anthropic, model)) ∧
      (c.anthropicKey = "" → c.openAIKey ≠ "" →
        streamRoute c model = some (.openai, "gpt-4o-mini".toList))) ∧
    ((goStartsWith model "claude".toList || goStartsWith model "anthropic".toList) = false →
      (goStartsWith model "gpt".toList || goStartsWith model "o1".toList) = true →
      (c.openAIKey ≠ "" → streamRoute c model = some (.openai, model)) ∧
      (c.openAIKey = "" → c.anthropicKey ≠ "" →
        streamRoute c model = some (.anthropic, "claude-3-haiku-20240307".toList))) ∧
    (c.anthropicKey = "" → c.openAIKey = "" → streamRoute c model = none) := by
  refine ⟨?_, ?_, ?_⟩
  · intro hm
    constructor
    · intro hk
      unfold streamRoute
      rw [if_pos hm, if_pos hk]
    · intro hk1 hk2
      unfold streamRoute
      rw [if_pos hm, if_neg (fun h => h hk1), if_pos hk2]
  · intro hm1 hm2
    constructor
    · intro hk
      unfold streamRoute
      rw [if_neg (by rw [hm1]; exact Bool.false_ne_true), if_pos hm2, if_pos hk]
    · intro hk1 hk2
      unfold streamRoute
      rw [if_neg (by rw [hm1]; exact Bool.false_ne_true), if_pos hm2,
        if_neg (fun h => h hk1), if_pos hk2]
  · intro hk1 hk2
    unfold streamRoute defaultRoute
    split
    · simp [hk1, hk2]
    · split
      · simp [hk1, hk2]
      · simp [hk1, hk2]

/-- Claim C8 witness: the routing theorem applied to concrete clients and
model names, covering both primary routes, both fallbacks and the no-key
error. -/
theorem C8_provider_routing_witness :
    streamRoute ⟨"ak", ""⟩ "claude-3".toList = some (LLMProvider.anthropic, "claude-3".toList) ∧
    streamRoute ⟨"", "ok"⟩ "claude-3".toList = some (LLMProvider.openai, "gpt-4o-mini".toList) ∧
    streamRoute ⟨"", "ok"⟩ "gpt-4o".toList = some (LLMProvider.openai, "gpt-4o".toList) ∧
    streamRoute ⟨"ak", ""⟩ "gpt-4o".toList =
      some (LLMProvider.anthropic, "claude-3-haiku-20240307".toList) ∧
    streamRoute ⟨"", ""⟩ "claude-3".toList = none := by
  refine ⟨?_, ?_, ?_, ?_, ?_⟩
  · exact ((C8_provider_routing ⟨"ak", ""⟩ "claude-3".toList).1 (by decide)).1 (by decide)
  · exact ((C8_provider_routing ⟨"", "ok"⟩ "claude-3".toList).1 (by decide)).2 rfl (by decide)
  · exact ((C8_provider_routing ⟨"", "ok"⟩ "gpt-4o".toList).2.1 (by decide) (by decide)).1 (by decide)
  · exact ((C8_provider_routing ⟨"ak", ""⟩ "gpt-4o".toList).2.1 (by decide) (by decide)).2 rfl (by decide)
  · exact (C8_provider_routing ⟨"", ""⟩ "claude-3".toList).2.2 rfl rfl

/-! ## Claim C9 — End of a conversation -/

/-- Claim C9, counterexample: `End` is not idempotent — a second call with
the same conversation id, made two seconds after the first, overwrites both
the stored ended-at instant and the stored duration with values computed
from its own call time. -/
theorem C9_idempotence_counterexample :
    (ConversationService.End
        (ConversationService.End ⟨0, none, 0, "", ""⟩ "s" "neutral" 1500000000)
        "s" "neutral" 3500000000).endedAtNs ≠
      (ConversationService.End ⟨0, none, 0, "", ""⟩ "s" "neutral" 1500000000).endedAtNs ∧
    (ConversationService.End
        (ConversationService.End ⟨0, none, 0, "", ""⟩ "s" "neutral" 1500000000)
        "s" "neutral" 3500000000).durationSecs ≠
      (ConversationService.End ⟨0, none, 0, "", ""⟩ "s" "neutral" 1500000000).durationSecs := by
  decide

/-- Claim C9, amended: for every conversation, `End` called at a time not
earlier than the start sets ended-at to the call time (hence
ended_at ≥ started_at) and sets duration_secs to the floor of the elapsed
time in whole seconds (characterised by the two division bounds); but `End`
is not idempotent — any further call with the same id overwrites the stored
ended-at with its own call time. -/
theorem C9_end_amended (conv : Conversation) (summary sentiment : String)
    (nowNs : Nat) (h : conv.startedAtNs ≤ nowNs) :
    (ConversationService.End conv summary sentiment nowNs).endedAtNs = some nowNs ∧
    conv.startedAtNs ≤ nowNs ∧
    (ConversationService.End conv summary sentiment nowNs).durationSecs * 1000000000 ≤
      nowNs - conv.startedAtNs ∧
    nowNs - conv.startedAtNs <
      ((ConversationService.End conv summary sentiment nowNs).durationSecs + 1) * 1000000000 ∧
    (∀ (s2 snt2 : String) (t2 : Nat),
      (ConversationService.End (ConversationService.End conv summary sentiment nowNs)
          s2 snt2 t2).endedAtNs = some t2) := by
  refine ⟨rfl, h, ?_, ?_, fun _ _ _ => rfl⟩
  · exact Nat.div_mul_le_self _ _
  · exact (Nat.div_lt_iff_lt_mul (by norm_num)).mp (Nat.lt_succ_self _)

/-- Claim C9 witness: the amended theorem applied to a concrete
conversation started at 0 and ended at 2.5 s, whose stored ended-at is the
call time and whose duration, 2 s, satisfies the floor bounds. -/
theorem C9_end_amended_witness :
    (ConversationService.End ⟨0, none, 0, "", ""⟩ "a" "b" 2500000000).endedAtNs =
      some 2500000000 ∧
    (ConversationService.End ⟨0, none, 0, "", ""⟩ "a" "b" 2500000000).durationSecs * 1000000000 ≤
      2500000000 - (0 : Nat) :=
  ⟨(C9_end_amended ⟨0, none, 0, "", ""⟩ "a" "b" 2500000000 (by decide)).1,
    (C9_end_amended ⟨0, none, 0, "", ""⟩ "a" "b" 2500000000 (by decide)).2.2.1⟩

/-! ## Claim C10 — start/end offsets coincide -/

/-- Claim C10: every message the pipeline persists — the user message from a
final transcript and the assistant message from either LLM variant — has
its start offset equal to its end offset, because a single
elapsed-milliseconds value is computed at persistence time and passed as
both arguments of AddMessage. -/
theorem C10_offsets_equal (convID : Nat) (ev : TranscriptEvent)
    (stream stream2 : Option (List String)) (e1 e2 e3 : Nat) :
    ((runSTTEvent convID ev e1).persisted.all fun m => m.startTime == m.endTime) = true ∧
    ((runLLMTurn convID stream e2).persisted.all fun m => m.startTime == m.endTime) = true ∧
    ((runLangChainTurn convID stream2 e3).persisted.all fun m => m.startTime == m.endTime) = true := by
  refine ⟨?_, ?_, ?_⟩
  · by_cases hp : ev.isPartial
    · simp [runSTTEvent, hp]
    · simp [runSTTEvent, hp, ConversationService.AddMessage]
  · cases stream with
    | none => simp [runLLMTurn]
    | some chunks => simp [runLLMTurn, ConversationService.AddMessage]
  · cases stream2 with
    | none => simp [runLangChainTurn]
    | some chunks => simp [runLangChainTurn, ConversationService.AddMessage]

end VoiceAgent
